import Mathlib

/-!
# Verification of the status-go push-notification server core

A shallow embedding of `protocol/push_notification_server/push_notification_server.go`:
the registration validator, the query handler, the request handler and the
registration handler, together with proofs of the specified properties.

Protobuf byte strings are modelled as `List Nat`, protobuf strings as `String`,
`uint64` fields as `Nat` (only order comparisons occur, so overflow is not
reachable).  External collaborators (ECIES decryption, protobuf unmarshalling,
the public-key hash, and the persistence store) are fields of the `Server` /
`Persistence` structures, mirroring the Go interfaces they implement.
-/

/-- Protobuf byte strings (`[]byte` in Go). -/
abbrev Bytes := List Nat

/-- `protobuf.PushNotificationRegistration_TokenType`: the push-platform enum.
`UNKNOWN_TOKEN_TYPE` is the protobuf zero value. -/
inductive TokenType where
  | UNKNOWN_TOKEN_TYPE
  | APN_TOKEN
  | FIREBASE_TOKEN
  deriving DecidableEq, Repr

/-- `protobuf.PushNotificationRegistration`: the decrypted registration record.
Field names follow the Go struct: `Token` is the device token, `Version` is a
`uint64`, `AllowedUserList` is a repeated byte-string field. -/
structure PushNotificationRegistration where
  tokenType : TokenType
  token : String
  installationId : String
  accessToken : String
  version : Nat
  unregister : Bool
  allowedUserList : List Bytes
  deriving DecidableEq, Repr

/-- The classified errors of the registration validator, one constructor per
distinct Go error value.  `decryptionError` and `persistenceError` stand for
the arbitrary errors propagated unchanged from the crypto helper and the
persistence store; in Go these are distinct error values from the named
sentinel errors, which the disjoint constructors reflect. -/
inductive RegError where
  | emptyPayload
  | emptyPublicKey
  | decryptionError (e : String)
  | couldNotUnmarshal
  | invalidVersion
  | malformedInstallationID
  | malformedAccessToken
  | malformedDeviceToken
  | unknownTokenType
  | persistenceError (e : String)
  deriving DecidableEq, Repr

/-- An entry of the result of `GetPushNotificationRegistrationByPublicKeys`:
the hashed identity key together with its stored registration. -/
structure IDAndRegistration where
  id : Bytes
  registration : PushNotificationRegistration
  deriving DecidableEq, Repr

/-- The `Persistence` interface consumed by the server, keyed by
hashed-public-key and installation id.  Lookups may fail with an error
(`Except String`); `save` reports `some e` when the write fails. -/
structure Persistence where
  getPushNotificationRegistrationByPublicKeyAndInstallationID :
    Bytes → String → Except String (Option PushNotificationRegistration)
  getPushNotificationRegistrationByPublicKeys :
    List Bytes → Except String (List IDAndRegistration)
  save : Bytes → PushNotificationRegistration → Option String

/-- The server, parametric in the (opaque) public-key type `K`.  The fields
other than `persistence` model the external collaborators used by the Go
`Server`: `decryptRegistration` is ECIES shared-key derivation followed by
authenticated decryption, `unmarshal` is `proto.Unmarshal` into a
`PushNotificationRegistration` (`none` on parse failure), `hashPublicKey` is
`common.HashPublicKey`, and `shake256` is `common.Shake256` over the raw
payload (`none` standing for a nil byte slice). -/
structure Server (K : Type) where
  decryptRegistration : K → Bytes → Except String Bytes
  unmarshal : Bytes → Option PushNotificationRegistration
  hashPublicKey : K → Bytes
  shake256 : Option Bytes → Bytes
  persistence : Persistence

/-- Hexadecimal digit as accepted by the UUID parser (`0-9`, `a-f`, `A-F`). -/
def isHexChar (c : Char) : Bool :=
  (0x30 ≤ c.toNat && c.toNat ≤ 0x39) ||
  (0x61 ≤ c.toNat && c.toNat ≤ 0x66) ||
  (0x41 ≤ c.toNat && c.toNat ≤ 0x46)

/-- Modelled from the spec: the vendored `uuid.Parse` is not under `src/`;
the spec requires the field to "parse as a valid UUID", i.e. the canonical
36-character hyphenated hexadecimal form `xxxxxxxx-xxxx-xxxx-xxxx-xxxxxxxxxxxx`. -/
def uuidWellFormed (s : String) : Bool :=
  let cs := s.toList
  cs.length = 36 &&
  (List.range 36).all fun i =>
    if i = 8 || i = 13 || i = 18 || i = 23 then cs.getD i ' ' = '-'
    else isHexChar (cs.getD i ' ')

/-- `Server.validateUUID`: rejects the empty string, then defers to the UUID
parser.  Returns `true` when the Go method returns a nil error. -/
def validateUUID (u : String) : Bool :=
  if u.length = 0 then false else uuidWellFormed u

/-- `Server.ValidateRegistration`: decrypts and parses the payload, then checks
version ≥ 1, the installation id, strict version progress over the stored
registration, and (unless unregistering) the access token, device token and
token type.  Returns the registration or the first failing check's error. -/
def ValidateRegistration {K : Type} (srv : Server K)
    (publicKey : Option K) (payload : Option Bytes) :
    Except RegError PushNotificationRegistration :=
  match payload with
  | none => .error .emptyPayload
  | some payload =>
    match publicKey with
    | none => .error .emptyPublicKey
    | some pk =>
      match srv.decryptRegistration pk payload with
      | .error e => .error (.decryptionError e)
      | .ok decryptedPayload =>
        match srv.unmarshal decryptedPayload with
        | none => .error .couldNotUnmarshal
        | some registration =>
          if registration.version < 1 then
            .error .invalidVersion
          else if ¬ validateUUID registration.installationId then
            .error .malformedInstallationID
          else
            match srv.persistence.getPushNotificationRegistrationByPublicKeyAndInstallationID
                (srv.hashPublicKey pk) registration.installationId with
            | .error e => .error (.persistenceError e)
            | .ok previousRegistration =>
              if (match previousRegistration with
                  | some prev => decide (registration.version ≤ prev.version)
                  | none => false) then
                .error .invalidVersion
              else if registration.unregister then
                .ok registration
              else if ¬ validateUUID registration.accessToken then
                .error .malformedAccessToken
              else if registration.token.length = 0 then
                .error .malformedDeviceToken
              else if registration.tokenType = .UNKNOWN_TOKEN_TYPE then
                .error .unknownTokenType
              else
                .ok registration

/-- `protobuf.PushNotificationQuery`: a repeated list of identity public keys. -/
structure PushNotificationQuery where
  publicKeys : List Bytes
  deriving DecidableEq, Repr

/-- `protobuf.PushNotificationQueryInfo`: one query-response entry.  Protobuf
zero values: empty string for `accessToken`, empty list for `allowedUserList`. -/
structure PushNotificationQueryInfo where
  accessToken : String
  installationId : String
  publicKey : Bytes
  allowedUserList : List Bytes
  deriving DecidableEq, Repr

/-- `protobuf.PushNotificationQueryResponse`. -/
structure PushNotificationQueryResponse where
  info : List PushNotificationQueryInfo
  success : Bool
  deriving DecidableEq, Repr

/-- `Server.HandlePushNotificationQuery`: a nil or empty query, and a failing
persistence lookup, each return the zero-value response; otherwise one entry
per stored registration, disclosing the allow-list when it is non-empty and
the access token otherwise, with `success := true`. -/
def HandlePushNotificationQuery (p : Persistence)
    (query : Option PushNotificationQuery) : PushNotificationQueryResponse :=
  let response : PushNotificationQueryResponse := { info := [], success := false }
  match query with
  | none => response
  | some query =>
    if query.publicKeys.length = 0 then response
    else
      match p.getPushNotificationRegistrationByPublicKeys query.publicKeys with
      | .error _ => response
      | .ok registrations =>
        { info := registrations.map fun idAndResponse =>
            let registration := idAndResponse.registration
            if registration.allowedUserList.length > 0 then
              { accessToken := ""
                installationId := registration.installationId
                publicKey := idAndResponse.id
                allowedUserList := registration.allowedUserList }
            else
              { accessToken := registration.accessToken
                installationId := registration.installationId
                publicKey := idAndResponse.id
                allowedUserList := [] }
          success := true }

/-- `protobuf.PushNotification`: one notification-request entry. -/
structure PushNotification where
  accessToken : String
  publicKey : Bytes
  installationId : String
  deriving DecidableEq, Repr

/-- `protobuf.PushNotificationRequest`. -/
structure PushNotificationRequest where
  requests : List PushNotification
  messageId : Bytes
  deriving DecidableEq, Repr

/-- `protobuf.PushNotificationReport_ErrorType`; `UNKNOWN_ERROR_TYPE` is the
protobuf zero value, left in place on a successful report. -/
inductive ReportErrorType where
  | UNKNOWN_ERROR_TYPE
  | RATE_LIMITED
  | NOT_REGISTERED
  | WRONG_TOKEN
  deriving DecidableEq, Repr

/-- `protobuf.PushNotificationReport`: the per-entry outcome. -/
structure PushNotificationReport where
  success : Bool
  error : ReportErrorType
  publicKey : Bytes
  installationId : String
  deriving DecidableEq, Repr

/-- `protobuf.PushNotificationResponse`. -/
structure PushNotificationResponse where
  messageId : Bytes
  reports : List PushNotificationReport
  deriving DecidableEq, Repr

/-- `RequestAndRegistration`: a successful request entry paired with its stored
registration, queued for the gateway dispatch batch. -/
structure RequestAndRegistration where
  request : PushNotification
  registration : PushNotificationRegistration
  deriving DecidableEq, Repr

/-- One iteration of the request-handling loop: looks up the registration for
the entry's identity and installation id and produces the report, together
with the batch element when the entry is authorized. -/
def handleOneRequest (p : Persistence) (pn : PushNotification) :
    PushNotificationReport × Option RequestAndRegistration :=
  match p.getPushNotificationRegistrationByPublicKeyAndInstallationID
      pn.publicKey pn.installationId with
  | .error _ =>
    ({ success := false, error := .UNKNOWN_ERROR_TYPE
       publicKey := pn.publicKey, installationId := pn.installationId }, none)
  | .ok none =>
    ({ success := false, error := .NOT_REGISTERED
       publicKey := pn.publicKey, installationId := pn.installationId }, none)
  | .ok (some registration) =>
    if registration.accessToken ≠ pn.accessToken then
      ({ success := false, error := .WRONG_TOKEN
         publicKey := pn.publicKey, installationId := pn.installationId }, none)
    else
      ({ success := true, error := .UNKNOWN_ERROR_TYPE
         publicKey := pn.publicKey, installationId := pn.installationId },
       some { request := pn, registration := registration })

/-- The request-handling loop: reports in input order, plus the batch of
authorized entries (`requestAndRegistrations` in the Go code). -/
def processRequests (p : Persistence) :
    List PushNotification → List PushNotificationReport × List RequestAndRegistration
  | [] => ([], [])
  | pn :: rest =>
    let hd := handleOneRequest p pn
    let tl := processRequests p rest
    (hd.1 :: tl.1,
     match hd.2 with
     | some rr => rr :: tl.2
     | none => tl.2)

/-- `Server.HandlePushNotificationRequest`: a nil request or one with an empty
`messageId` yields no response at all (`none`).  Otherwise the response echoes
the message id with one report per entry; the second component is the batch
handed to the gorush gateway dispatcher (dispatched only when non-empty, and
its outcome never alters the response). -/
def HandlePushNotificationRequest (p : Persistence)
    (request : Option PushNotificationRequest) :
    Option (PushNotificationResponse × List RequestAndRegistration) :=
  match request with
  | none => none
  | some request =>
    if request.messageId.length = 0 then none
    else
      let result := processRequests p request.requests
      some ({ messageId := request.messageId, reports := result.1 }, result.2)

/-- `protobuf.PushNotificationRegistrationResponse_ErrorType`. -/
inductive RegistrationResponseError where
  | UNKNOWN_ERROR_TYPE
  | MALFORMED_MESSAGE
  | VERSION_MISMATCH
  | UNSUPPORTED_TOKEN_TYPE
  | INTERNAL_ERROR
  deriving DecidableEq, Repr

/-- `protobuf.PushNotificationRegistrationResponse`. -/
structure PushNotificationRegistrationResponse where
  requestId : Bytes
  success : Bool
  error : RegistrationResponseError
  deriving DecidableEq, Repr

/-- The record stored on unregistering: only `version` and `installationId`
are kept, every other field is its protobuf zero value. -/
def emptyRegistration (registration : PushNotificationRegistration) :
    PushNotificationRegistration :=
  { tokenType := .UNKNOWN_TOKEN_TYPE
    token := ""
    installationId := registration.installationId
    accessToken := ""
    version := registration.version
    unregister := false
    allowedUserList := [] }

/-- `Server.HandlePushNotificationRegistration`: validates the payload, maps
the `invalid-version` error to `VERSION_MISMATCH` and every other validation
error to `MALFORMED_MESSAGE`, then persists the registration (reduced to
`emptyRegistration` when unregistering).  The second component records the
key and record handed to `SavePushNotificationRegistration` when the save
succeeded; a failed save yields `INTERNAL_ERROR`. -/
def HandlePushNotificationRegistration {K : Type} (srv : Server K)
    (publicKey : Option K) (payload : Option Bytes) :
    PushNotificationRegistrationResponse ×
      Option (Bytes × PushNotificationRegistration) :=
  let requestId := srv.shake256 payload
  match ValidateRegistration srv publicKey payload with
  | .error e =>
    ({ requestId := requestId
       success := false
       error := if e = .invalidVersion then .VERSION_MISMATCH else .MALFORMED_MESSAGE },
     none)
  | .ok registration =>
    -- validation rejects a nil public key, so `publicKey` is `some` here;
    -- the `none` branch is unreachable
    match publicKey with
    | none =>
      ({ requestId := requestId, success := false, error := .INTERNAL_ERROR }, none)
    | some pk =>
      let key := srv.hashPublicKey pk
      let toSave :=
        if registration.unregister then emptyRegistration registration else registration
      match srv.persistence.save key toSave with
      | some _ =>
        ({ requestId := requestId, success := false, error := .INTERNAL_ERROR }, none)
      | none =>
        ({ requestId := requestId, success := true, error := .UNKNOWN_ERROR_TYPE },
         some (key, toSave))

/-! ## Concrete fixtures used by witnesses -/

/-- The all-zero canonical UUID, a valid installation id / access token. -/
def uuid0 : String := "00000000-0000-0000-0000-000000000000"

/-- A second canonical UUID. -/
def uuid1 : String := "11111111-2222-3333-4444-555555555555"

/-- A persistence store answering every per-installation lookup with `stored`,
every multi-key lookup with `listed`, and always accepting saves. -/
def testPersistence (stored : Option PushNotificationRegistration)
    (listed : List IDAndRegistration) : Persistence :=
  { getPushNotificationRegistrationByPublicKeyAndInstallationID := fun _ _ => .ok stored
    getPushNotificationRegistrationByPublicKeys := fun _ => .ok listed
    save := fun _ _ => none }

/-- A persistence store whose lookups fail with the given error. -/
def failingPersistence (e : String) : Persistence :=
  { getPushNotificationRegistrationByPublicKeyAndInstallationID := fun _ _ => .error e
    getPushNotificationRegistrationByPublicKeys := fun _ => .error e
    save := fun _ _ => none }

/-- A server over `Nat` public keys whose decryption is the identity and whose
unmarshalling returns `parsed`. -/
def testServer (parsed : Option PushNotificationRegistration)
    (stored : Option PushNotificationRegistration) : Server Nat :=
  { decryptRegistration := fun _ payload => .ok payload
    unmarshal := fun _ => parsed
    hashPublicKey := fun k => [k]
    shake256 := fun _ => [7]
    persistence := testPersistence stored [] }

/-- A fully-populated valid registration at the given version. -/
def sampleRegistration (v : Nat) : PushNotificationRegistration :=
  { tokenType := .APN_TOKEN
    token := "device-token-1"
    installationId := uuid0
    accessToken := uuid1
    version := v
    unregister := false
    allowedUserList := [] }

/-- A registration with version 0 and an empty (hence malformed) installation
id: the validator's version check fires before the installation-id check. -/
def regVersionZeroBadId : PushNotificationRegistration :=
  { tokenType := .APN_TOKEN
    token := "device-token-1"
    installationId := ""
    accessToken := uuid1
    version := 0
    unregister := false
    allowedUserList := [] }

/-- A registration guarded by a non-empty allow-list, used by witnesses. -/
def allowListedRegistration : PushNotificationRegistration :=
  { tokenType := .FIREBASE_TOKEN
    token := "device-token-2"
    installationId := uuid1
    accessToken := uuid0
    version := 3
    unregister := false
    allowedUserList := [[9, 9]] }

/-- A request entry claiming a wrong access token for `sampleRegistration`. -/
def wrongTokenEntry : PushNotification :=
  { accessToken := "wrong-token"
    publicKey := [2]
    installationId := uuid0 }

/-- An unregister record at version 2 for the installation `uuid0`. -/
def unregisterRecord : PushNotificationRegistration :=
  { tokenType := .UNKNOWN_TOKEN_TYPE
    token := ""
    installationId := uuid0
    accessToken := ""
    version := 2
    unregister := true
    allowedUserList := [] }

/-- A request entry for the installation `uuid0` claiming the empty access
token. -/
def emptyTokenEntry : PushNotification :=
  { accessToken := ""
    publicKey := [3]
    installationId := uuid0 }

/-- The report the request loop emits for a wrong-token entry. -/
def wrongTokenReport (pn : PushNotification) : PushNotificationReport :=
  { success := false
    error := .WRONG_TOKEN
    publicKey := pn.publicKey
    installationId := pn.installationId }

/-- The report the request loop emits for an authorized entry: `success` set,
`error` left at its zero value (neither `NOT_REGISTERED` nor `WRONG_TOKEN`). -/
def authorizedReport (pn : PushNotification) : PushNotificationReport :=
  { success := true
    error := .UNKNOWN_ERROR_TYPE
    publicKey := pn.publicKey
    installationId := pn.installationId }

/-! ## Helper lemmas -/

/-- The reports of the request loop are, in order, the reports of each entry. -/
theorem processRequests_reports (p : Persistence) (pns : List PushNotification) :
    (processRequests p pns).1 = pns.map fun pn => (handleOneRequest p pn).1 := by
  induction pns with
  | nil => rfl
  | cons pn rest ih => simp [processRequests, ih]

/-- Every batch element comes from some input entry. -/
theorem exists_of_mem_batch (p : Persistence) {pns : List PushNotification}
    {rr : RequestAndRegistration} (h : rr ∈ (processRequests p pns).2) :
    ∃ pn ∈ pns, (handleOneRequest p pn).2 = some rr := by
  induction pns with
  | nil => simp [processRequests] at h
  | cons pn rest ih =>
    simp only [processRequests] at h
    rcases hh : (handleOneRequest p pn).2 with _ | rr'
    · rw [hh] at h
      obtain ⟨pn', h1, h2⟩ := ih h
      exact ⟨pn', List.mem_cons_of_mem _ h1, h2⟩
    · rw [hh] at h
      rcases List.mem_cons.mp h with h | h
      · exact ⟨pn, List.mem_cons_self _ _, by rw [hh, h]⟩
      · obtain ⟨pn', h1, h2⟩ := ih h
        exact ⟨pn', List.mem_cons_of_mem _ h1, h2⟩

/-- An authorized entry's batch element is in the batch. -/
theorem mem_batch_of_some (p : Persistence) {pns : List PushNotification}
    {pn : PushNotification} {rr : RequestAndRegistration}
    (h1 : pn ∈ pns) (h2 : (handleOneRequest p pn).2 = some rr) :
    rr ∈ (processRequests p pns).2 := by
  induction pns with
  | nil => simp at h1
  | cons hd rest ih =>
    simp only [processRequests]
    rcases List.mem_cons.mp h1 with h | h
    · subst h
      rw [h2]
      exact List.mem_cons_self _ _
    · rcases hh : (handleOneRequest p hd).2 with _ | rr'
      · exact ih h
      · exact List.mem_cons_of_mem _ (ih h)

/-- A batch element records exactly the looked-up registration, whose stored
access token equals the claimed one. -/
theorem batch_elem_authorized (p : Persistence) {pn : PushNotification}
    {rr : RequestAndRegistration} (h : (handleOneRequest p pn).2 = some rr) :
    rr.request = pn ∧
    p.getPushNotificationRegistrationByPublicKeyAndInstallationID
        pn.publicKey pn.installationId = .ok (some rr.registration) ∧
    rr.registration.accessToken = pn.accessToken := by
  unfold handleOneRequest at h
  rcases hg : p.getPushNotificationRegistrationByPublicKeyAndInstallationID
      pn.publicKey pn.installationId with e | reg?
  · rw [hg] at h; simp at h
  · rw [hg] at h
    rcases reg? with _ | reg
    · simp at h
    · by_cases htok : reg.accessToken ≠ pn.accessToken
      · simp [htok] at h
      · push_neg at htok
        simp [htok] at h
        subst h
        exact ⟨rfl, by simp [hg], by simpa using htok⟩

/-! ## Claim theorems -/

/-- C1: with a stored registration `R1` for the same hashed key and
installation id, validating a well-formed `R2` (version ≥ 1, valid
installation id) with `R2.version ≤ R1.version` fails with the
invalid-version error. -/
theorem validate_stale_version_rejected {K : Type} (srv : Server K) (pk : K)
    (payload d : Bytes) (R2 R1 : PushNotificationRegistration)
    (hdec : srv.decryptRegistration pk payload = .ok d)
    (hun : srv.unmarshal d = some R2)
    (hver : 1 ≤ R2.version)
    (hid : validateUUID R2.installationId = true)
    (hprev : srv.persistence.getPushNotificationRegistrationByPublicKeyAndInstallationID
        (srv.hashPublicKey pk) R2.installationId = .ok (some R1))
    (hle : R2.version ≤ R1.version) :
    ValidateRegistration srv (some pk) (some payload) = .error .invalidVersion := by
  simp [ValidateRegistration, hdec, hun, hprev, Nat.not_lt.mpr hver, hid, hle]

/-- C1 witness: a concrete stale re-registration (version 1 after stored
version 1) is rejected with the invalid-version error. -/
theorem validate_stale_version_rejected_witness :
    ValidateRegistration (testServer (some (sampleRegistration 1))
        (some (sampleRegistration 1))) (some 5) (some [1, 2, 3])
      = .error .invalidVersion :=
  validate_stale_version_rejected _ 5 [1, 2, 3] [1, 2, 3] (sampleRegistration 1)
    (sampleRegistration 1) rfl rfl (by decide) (by decide) rfl (by decide)

/-- C4: an unregister record with version ≥ 1, a valid installation id, and
version strictly above any stored one validates successfully, whatever its
access token, device token and token type contain. -/
theorem validate_unregister_succeeds {K : Type} (srv : Server K) (pk : K)
    (payload d : Bytes) (R : PushNotificationRegistration)
    (prev : Option PushNotificationRegistration)
    (hdec : srv.decryptRegistration pk payload = .ok d)
    (hun : srv.unmarshal d = some R)
    (hunreg : R.unregister = true)
    (hver : 1 ≤ R.version)
    (hid : validateUUID R.installationId = true)
    (hprev : srv.persistence.getPushNotificationRegistrationByPublicKeyAndInstallationID
        (srv.hashPublicKey pk) R.installationId = .ok prev)
    (hfresh : ∀ p ∈ prev, p.version < R.version) :
    ValidateRegistration srv (some pk) (some payload) = .ok R := by
  rcases prev with _ | p
  · simp [ValidateRegistration, hdec, hun, hprev, Nat.not_lt.mpr hver, hid, hunreg]
  · have hlt := hfresh p (by simp)
    simp [ValidateRegistration, hdec, hun, hprev, Nat.not_lt.mpr hver, hid, hunreg,
      Nat.not_le.mpr hlt]

/-- C4 witness: a concrete unregister record with an empty access token,
empty device token and unknown token type validates over a stored version-1
registration. -/
theorem validate_unregister_succeeds_witness :
    validateUUID uuid0 = true ∧
    ValidateRegistration (testServer
        (some { tokenType := .UNKNOWN_TOKEN_TYPE, token := "", installationId := uuid0,
                accessToken := "", version := 2, unregister := true,
                allowedUserList := [] })
        (some (sampleRegistration 1))) (some 9) (some [4])
      = .ok { tokenType := .UNKNOWN_TOKEN_TYPE, token := "", installationId := uuid0,
              accessToken := "", version := 2, unregister := true,
              allowedUserList := [] } :=
  ⟨by decide,
   validate_unregister_succeeds _ 9 [4] [4] _ (some (sampleRegistration 1))
     rfl rfl rfl (by decide) (by decide) rfl (by decide)⟩

/-- C6 counterexample: a registration whose installation id is empty (so
malformed) but whose version is 0 is rejected with the invalid-version error,
not the malformed-installation-id error — the `version < 1` check precedes the
UUID check in `ValidateRegistration`. -/
theorem validate_malformed_id_counterexample :
    validateUUID regVersionZeroBadId.installationId = false ∧
    ValidateRegistration (testServer (some regVersionZeroBadId) none) (some 0) (some [])
      = .error .invalidVersion ∧
    ValidateRegistration (testServer (some regVersionZeroBadId) none) (some 0) (some [])
      ≠ .error .malformedInstallationID := by
  have heq : ValidateRegistration (testServer (some regVersionZeroBadId) none)
      (some 0) (some []) = .error .invalidVersion := rfl
  refine ⟨by decide, heq, ?_⟩
  rw [heq]
  simp

/-- C6 (amended): for every registration with version ≥ 1 whose installation
id is empty or not a well-formed UUID, validation fails with the
malformed-installation-id error; the stored-registration version comparison
and the token-field checks are never reached (the conclusion holds for every
persistence store and every token-field content). -/
theorem validate_malformed_id_rejected {K : Type} (srv : Server K) (pk : K)
    (payload d : Bytes) (R : PushNotificationRegistration)
    (hdec : srv.decryptRegistration pk payload = .ok d)
    (hun : srv.unmarshal d = some R)
    (hver : 1 ≤ R.version)
    (hid : validateUUID R.installationId = false) :
    ValidateRegistration srv (some pk) (some payload)
      = .error .malformedInstallationID := by
  simp [ValidateRegistration, hdec, hun, Nat.not_lt.mpr hver, hid]

/-- C6 witness: a concrete version-1 registration with a non-UUID installation
id is rejected with the malformed-installation-id error, here on a server
whose stored registration would otherwise trip the version comparison. -/
theorem validate_malformed_id_rejected_witness :
    ValidateRegistration (testServer
        (some { tokenType := .APN_TOKEN, token := "device-token-1",
                installationId := "not-a-uuid", accessToken := uuid1,
                version := 1, unregister := false, allowedUserList := [] })
        (some (sampleRegistration 3))) (some 2) (some [8])
      = .error .malformedInstallationID :=
  validate_malformed_id_rejected _ 2 [8] [8] _ rfl rfl (by decide) (by decide)

/-- C5: whenever validation fails, the registration handler's response carries
`VERSION_MISMATCH` exactly when the validation error is the invalid-version
error, and `MALFORMED_MESSAGE` for every other validation error. -/
theorem handleRegistration_error_mapping {K : Type} (srv : Server K)
    (publicKey : Option K) (payload : Option Bytes) (e : RegError)
    (h : ValidateRegistration srv publicKey payload = .error e) :
    ((HandlePushNotificationRegistration srv publicKey payload).1.error
        = .VERSION_MISMATCH ↔ e = .invalidVersion) ∧
    (e ≠ .invalidVersion →
      (HandlePushNotificationRegistration srv publicKey payload).1.error
        = .MALFORMED_MESSAGE) := by
  by_cases he : e = .invalidVersion
  · subst he
    simp [HandlePushNotificationRegistration, h]
  · simp [HandlePushNotificationRegistration, h, he]

/-- C5 witness: a nil payload fails validation with the empty-payload error
and the handler answers `MALFORMED_MESSAGE` (and not `VERSION_MISMATCH`). -/
theorem handleRegistration_error_mapping_witness :
    ((HandlePushNotificationRegistration (testServer none none) (some 0) none).1.error
        = .VERSION_MISMATCH ↔ RegError.emptyPayload = .invalidVersion) ∧
    (RegError.emptyPayload ≠ .invalidVersion →
      (HandlePushNotificationRegistration (testServer none none) (some 0) none).1.error
        = .MALFORMED_MESSAGE) :=
  handleRegistration_error_mapping (testServer none none) (some 0) none
    RegError.emptyPayload rfl

/-- C7: a nil query or a query with zero identities returns the empty response
with `success = false`; a non-empty query whose persistence lookup succeeds
returns `success = true`, with an empty info list when no registrations were
found. -/
theorem handleQuery_empty_and_success (p : Persistence) :
    HandlePushNotificationQuery p none = { info := [], success := false } ∧
    (∀ q : PushNotificationQuery, q.publicKeys = [] →
      HandlePushNotificationQuery p (some q) = { info := [], success := false }) ∧
    (∀ (q : PushNotificationQuery) (regs : List IDAndRegistration),
      q.publicKeys ≠ [] →
      p.getPushNotificationRegistrationByPublicKeys q.publicKeys = .ok regs →
      (HandlePushNotificationQuery p (some q)).success = true ∧
      (regs = [] → (HandlePushNotificationQuery p (some q)).info = [])) := by
  refine ⟨rfl, ?_, ?_⟩
  · intro q hq
    simp [HandlePushNotificationQuery, hq]
  · intro q regs hq hget
    have hlen : ¬ q.publicKeys.length = 0 := by
      simpa [List.length_eq_zero] using hq
    constructor
    · simp [HandlePushNotificationQuery, hlen, hget]
    · intro hregs
      simp [HandlePushNotificationQuery, hlen, hget, hregs]

/-- C7 witness: instantiated at a store holding no registrations, with the
one-identity query `[[1]]`. -/
theorem handleQuery_empty_and_success_witness :
    HandlePushNotificationQuery (testPersistence none []) none
      = { info := [], success := false } ∧
    HandlePushNotificationQuery (testPersistence none []) (some { publicKeys := [] })
      = { info := [], success := false } ∧
    ((HandlePushNotificationQuery (testPersistence none [])
        (some { publicKeys := [[1]] })).success = true ∧
      ([] = ([] : List IDAndRegistration) →
        (HandlePushNotificationQuery (testPersistence none [])
          (some { publicKeys := [[1]] })).info = [])) :=
  ⟨(handleQuery_empty_and_success (testPersistence none [])).1,
   (handleQuery_empty_and_success (testPersistence none [])).2.1 _ rfl,
   (handleQuery_empty_and_success (testPersistence none [])).2.2
     { publicKeys := [[1]] } [] (by decide) rfl⟩

/-- C8: when the persistence lookup for a non-empty query fails, the handler
returns the empty response (no entries, `success = false`) instead of
propagating the error. -/
theorem handleQuery_persistence_error_swallowed (p : Persistence)
    (q : PushNotificationQuery) (e : String)
    (hq : q.publicKeys ≠ [])
    (hget : p.getPushNotificationRegistrationByPublicKeys q.publicKeys = .error e) :
    HandlePushNotificationQuery p (some q) = { info := [], success := false } := by
  have hlen : ¬ q.publicKeys.length = 0 := by
    simpa [List.length_eq_zero] using hq
  simp [HandlePushNotificationQuery, hlen, hget]

/-- C8 witness: a failing store and the one-identity query `[[1]]`. -/
theorem handleQuery_persistence_error_swallowed_witness :
    HandlePushNotificationQuery (failingPersistence "db down")
        (some { publicKeys := [[1]] })
      = { info := [], success := false } :=
  handleQuery_persistence_error_swallowed (failingPersistence "db down")
    { publicKeys := [[1]] } "db down" (by decide) rfl

/-- C9: a nil request, and a request with an empty `messageId`, produce no
response at all (`none`); any request with a non-empty `messageId` produces a
response echoing that `messageId`. -/
theorem handleRequest_silent_on_missing_messageId (p : Persistence) :
    HandlePushNotificationRequest p none = none ∧
    (∀ request : PushNotificationRequest, request.messageId = [] →
      HandlePushNotificationRequest p (some request) = none) ∧
    (∀ request : PushNotificationRequest, request.messageId ≠ [] →
      ∃ resp batch, HandlePushNotificationRequest p (some request) = some (resp, batch) ∧
        resp.messageId = request.messageId) := by
  refine ⟨rfl, ?_, ?_⟩
  · intro request hreq
    simp [HandlePushNotificationRequest, hreq]
  · intro request hreq
    have hlen : ¬ request.messageId.length = 0 := by
      simpa [List.length_eq_zero] using hreq
    refine ⟨{ messageId := request.messageId
              reports := (processRequests p request.requests).1 },
      (processRequests p request.requests).2, ?_, rfl⟩
    simp [HandlePushNotificationRequest, hlen]

/-- C9 witness: instantiated at the empty store, an empty-id request and a
request with message id `[1]` and no entries. -/
theorem handleRequest_silent_on_missing_messageId_witness :
    HandlePushNotificationRequest (testPersistence none []) none = none ∧
    HandlePushNotificationRequest (testPersistence none [])
      (some { requests := [], messageId := [] }) = none ∧
    ∃ resp batch,
      HandlePushNotificationRequest (testPersistence none [])
        (some { requests := [], messageId := [1] }) = some (resp, batch) ∧
      resp.messageId = ({ requests := [], messageId := [1] } :
        PushNotificationRequest).messageId :=
  ⟨(handleRequest_silent_on_missing_messageId (testPersistence none [])).1,
   (handleRequest_silent_on_missing_messageId (testPersistence none [])).2.1 _ rfl,
   (handleRequest_silent_on_missing_messageId (testPersistence none [])).2.2
     { requests := [], messageId := [1] } (by decide)⟩

/-- C3: every query-response entry carries the registration's identity and
installation id and disclosed credential: the allow-list (and a zero-value
access token) when the stored allow-list is non-empty, the access token (and a
zero-value allow-list) otherwise. -/
theorem handleQuery_discloses_exactly_one (p : Persistence)
    (q : PushNotificationQuery) (regs : List IDAndRegistration)
    (hq : q.publicKeys ≠ [])
    (hget : p.getPushNotificationRegistrationByPublicKeys q.publicKeys = .ok regs)
    (i : Nat) (entry : IDAndRegistration)
    (hi : regs.get? i = some entry) :
    ∃ info, (HandlePushNotificationQuery p (some q)).info.get? i = some info ∧
      info.publicKey = entry.id ∧
      info.installationId = entry.registration.installationId ∧
      (entry.registration.allowedUserList ≠ [] →
        info.allowedUserList = entry.registration.allowedUserList ∧
        info.accessToken = "") ∧
      (entry.registration.allowedUserList = [] →
        info.accessToken = entry.registration.accessToken ∧
        info.allowedUserList = []) := by
  have hlen : ¬ q.publicKeys.length = 0 := by
    simpa [List.length_eq_zero] using hq
  have hstep : HandlePushNotificationQuery p (some q)
      = { info := regs.map fun idAndResponse =>
            if idAndResponse.registration.allowedUserList.length > 0 then
              { accessToken := ""
                installationId := idAndResponse.registration.installationId
                publicKey := idAndResponse.id
                allowedUserList := idAndResponse.registration.allowedUserList }
            else
              { accessToken := idAndResponse.registration.accessToken
                installationId := idAndResponse.registration.installationId
                publicKey := idAndResponse.id
                allowedUserList := [] }
          success := true } := by
    simp [HandlePushNotificationQuery, hlen, hget]
  rw [hstep]
  simp only [List.get?_map, hi, Option.map_some']
  refine ⟨_, rfl, ?_, ?_, ?_, ?_⟩ <;>
    rcases hl : entry.registration.allowedUserList with _ | ⟨u, us⟩ <;>
    simp [hl]

/-- C3 witness: a store listing one allow-listed registration; the entry for
it carries the allow-list and a zero-value access token. -/
theorem handleQuery_discloses_exactly_one_witness :
    ∃ info,
      (HandlePushNotificationQuery
        (testPersistence none [{ id := [5], registration := allowListedRegistration }])
        (some { publicKeys := [[5]] })).info.get? 0 = some info ∧
      info.publicKey = ([5] : Bytes) ∧
      info.installationId = allowListedRegistration.installationId ∧
      (allowListedRegistration.allowedUserList ≠ [] →
        info.allowedUserList = allowListedRegistration.allowedUserList ∧
        info.accessToken = "") ∧
      (allowListedRegistration.allowedUserList = [] →
        info.accessToken = allowListedRegistration.accessToken ∧
        info.allowedUserList = []) :=
  handleQuery_discloses_exactly_one
    (testPersistence none [{ id := [5], registration := allowListedRegistration }])
    { publicKeys := [[5]] } [{ id := [5], registration := allowListedRegistration }]
    (by decide) rfl 0 { id := [5], registration := allowListedRegistration } rfl

/-- C2: a request entry whose claimed access token differs from the stored
registration's token is reported with `success = false` and `WRONG_TOKEN`, and
no element of the gateway dispatch batch is that entry. -/
theorem handleRequest_wrong_token_excluded (p : Persistence)
    (request : PushNotificationRequest) (i : Nat) (pn : PushNotification)
    (reg : PushNotificationRegistration)
    (hmsg : request.messageId ≠ [])
    (hi : request.requests.get? i = some pn)
    (hget : p.getPushNotificationRegistrationByPublicKeyAndInstallationID
        pn.publicKey pn.installationId = .ok (some reg))
    (htok : reg.accessToken ≠ pn.accessToken) :
    ∃ resp batch,
      HandlePushNotificationRequest p (some request) = some (resp, batch) ∧
      resp.reports.get? i = some (wrongTokenReport pn) ∧
      ∀ rr ∈ batch, rr.request ≠ pn := by
  have hlen : ¬ request.messageId.length = 0 := by
    simpa [List.length_eq_zero] using hmsg
  refine ⟨{ messageId := request.messageId
            reports := (processRequests p request.requests).1 },
    (processRequests p request.requests).2,
    by simp [HandlePushNotificationRequest, hlen], ?_, ?_⟩
  · rw [processRequests_reports, List.get?_map, hi]
    simp [handleOneRequest, hget, htok, wrongTokenReport]
  · intro rr hrr hreq
    obtain ⟨pn', hpn', hsome⟩ := exists_of_mem_batch p hrr
    obtain ⟨h1, h2, h3⟩ := batch_elem_authorized p hsome
    have hpe : pn' = pn := by rw [← h1, hreq]
    subst hpe
    rw [hget] at h2
    simp only [Except.ok.injEq, Option.some.injEq] at h2
    exact htok (by rw [h2]; exact h3)

/-- C2 witness: against a store holding `sampleRegistration 1` (whose token is
`uuid1`), the wrong-token entry is reported `WRONG_TOKEN` and kept out of the
batch. -/
theorem handleRequest_wrong_token_excluded_witness :
    ∃ resp batch,
      HandlePushNotificationRequest (testPersistence (some (sampleRegistration 1)) [])
        (some { requests := [wrongTokenEntry], messageId := [1] }) = some (resp, batch) ∧
      resp.reports.get? 0 = some (wrongTokenReport wrongTokenEntry) ∧
      ∀ rr ∈ batch, rr.request ≠ wrongTokenEntry :=
  handleRequest_wrong_token_excluded (testPersistence (some (sampleRegistration 1)) [])
    { requests := [wrongTokenEntry], messageId := [1] } 0 wrongTokenEntry
    (sampleRegistration 1) (by decide) rfl rfl (by decide)

/-- C10: a successful unregister stores `emptyRegistration`, whose access
token is the empty string; a later notification request for that installation
claiming the empty access token is therefore reported successful (error left
at its zero value, neither `NOT_REGISTERED` nor `WRONG_TOKEN`) and its entry
is put into the gateway dispatch batch. -/
theorem unregister_then_empty_token_request_succeeds {K : Type} (srv : Server K)
    (pk : K) (payload : Bytes) (R : PushNotificationRegistration)
    (hval : ValidateRegistration srv (some pk) (some payload) = .ok R)
    (hunreg : R.unregister = true)
    (hsave : srv.persistence.save (srv.hashPublicKey pk) (emptyRegistration R) = none) :
    (HandlePushNotificationRegistration srv (some pk) (some payload)).1.success = true ∧
    (HandlePushNotificationRegistration srv (some pk) (some payload)).2
      = some (srv.hashPublicKey pk, emptyRegistration R) ∧
    (emptyRegistration R).accessToken = "" ∧
    ∀ (p' : Persistence) (request : PushNotificationRequest) (i : Nat)
      (pn : PushNotification),
      request.messageId ≠ [] →
      request.requests.get? i = some pn →
      p'.getPushNotificationRegistrationByPublicKeyAndInstallationID
          pn.publicKey pn.installationId = .ok (some (emptyRegistration R)) →
      pn.accessToken = "" →
      ∃ resp batch,
        HandlePushNotificationRequest p' (some request) = some (resp, batch) ∧
        resp.reports.get? i = some (authorizedReport pn) ∧
        { request := pn, registration := emptyRegistration R } ∈ batch := by
  refine ⟨?_, ?_, rfl, ?_⟩
  · simp [HandlePushNotificationRegistration, hval, hunreg, hsave]
  · simp [HandlePushNotificationRegistration, hval, hunreg, hsave]
  · intro p' request i pn hmsg hi hget htok
    have hlen : ¬ request.messageId.length = 0 := by
      simpa [List.length_eq_zero] using hmsg
    have hone : handleOneRequest p' pn
        = (authorizedReport pn, some { request := pn, registration := emptyRegistration R }) := by
      simp [handleOneRequest, hget, htok, authorizedReport, emptyRegistration]
    refine ⟨{ messageId := request.messageId
              reports := (processRequests p' request.requests).1 },
      (processRequests p' request.requests).2,
      by simp [HandlePushNotificationRequest, hlen], ?_, ?_⟩
    · rw [processRequests_reports, List.get?_map, hi]
      simp [hone]
    · exact mem_batch_of_some p' (List.get?_mem hi) (by rw [hone])

/-- C10 witness: unregistering installation `uuid0` (version 2 over stored
version 1) stores the empty-token record, and a request for it claiming the
empty access token is reported successful and batched. -/
theorem unregister_then_empty_token_request_succeeds_witness :
    (HandlePushNotificationRegistration
        (testServer (some unregisterRecord) (some (sampleRegistration 1)))
        (some 3) (some [1])).1.success = true ∧
    (HandlePushNotificationRegistration
        (testServer (some unregisterRecord) (some (sampleRegistration 1)))
        (some 3) (some [1])).2
      = some ([3], emptyRegistration unregisterRecord) ∧
    (emptyRegistration unregisterRecord).accessToken = "" ∧
    ∃ resp batch,
      HandlePushNotificationRequest
          (testPersistence (some (emptyRegistration unregisterRecord)) [])
          (some { requests := [emptyTokenEntry], messageId := [2] })
        = some (resp, batch) ∧
      resp.reports.get? 0 = some (authorizedReport emptyTokenEntry) ∧
      ({ request := emptyTokenEntry
         registration := emptyRegistration unregisterRecord } :
        RequestAndRegistration) ∈ batch := by
  have h := unregister_then_empty_token_request_succeeds
    (testServer (some unregisterRecord) (some (sampleRegistration 1)))
    3 [1] unregisterRecord rfl rfl rfl
  exact ⟨h.1, h.2.1, h.2.2.1,
    h.2.2.2 (testPersistence (some (emptyRegistration unregisterRecord)) [])
      { requests := [emptyTokenEntry], messageId := [2] } 0 emptyTokenEntry
      (by decide) rfl rfl rfl⟩
